import Mathlib

/-!
Verification of the `NullCleaner` data-cleaning component of the
`forecast_data25` repository (`src/forcast_data/cleaned_nulls.py`).

The embedding models:
  * cell values as a tagged union Number / Text / Absent;
  * a table as a header plus rows of cells;
  * the CSV format at the level of raw string cells, with the
    type-inference rule "empty cell = Absent, decimal literal = Number,
    anything else = Text";
  * the file system as an association list from paths to raw CSV files,
    and write failures (permission errors) as a boolean oracle passed to
    the operations that write;
  * the two operations `clean_nulls` and `save_cleaned_data` as pure
    functions from component state, file system and write oracle to a
    result record (new state, new file system, printed messages),
    mirroring the `try`/`except` control flow of the source.
-/

/-- A cell of the in-memory table: numeric, text, or missing. -/
inductive CellValue where
  | Number (n : Int)
  | Text (s : String)
  | Absent
deriving DecidableEq, Repr

/-- A raw comma-delimited file: header row plus data rows, all cells as
raw strings. -/
structure RawCSV where
  header : List String
  rows : List (List String)
deriving DecidableEq, Repr

/-- An in-memory table as produced by the table-reading facility. -/
structure Table where
  header : List String
  rows : List (List CellValue)
deriving DecidableEq, Repr

/-! ### Decimal printing and parsing of cell literals -/

/-- The character for a single decimal digit. -/
def toDigitChar (d : Nat) : Char := Char.ofNat (48 + d)

/-- Whether a character is a decimal digit. -/
def isDigitChar (c : Char) : Bool := 48 ≤ c.toNat && c.toNat ≤ 57

/-- Numeric value of a digit character. -/
def digitVal (c : Char) : Nat := c.toNat - 48

/-- Accumulator-style left-to-right decimal parse of a digit string. -/
def digitsToNat : List Char → Nat → Option Nat
  | [], acc => some acc
  | c :: cs, acc =>
    if isDigitChar c then digitsToNat cs (acc * 10 + digitVal c) else none

/-- Fuel-based decimal printer: prepends the digits of `n` to `acc`.
The fuel bounds the recursion; `n` itself is always enough fuel. -/
def natToDigitsCore : Nat → Nat → List Char → List Char
  | 0, n, acc => toDigitChar n :: acc
  | fuel + 1, n, acc =>
    if n < 10 then toDigitChar n :: acc
    else natToDigitsCore fuel (n / 10) (toDigitChar (n % 10) :: acc)

/-- Number of digit characters `natToDigitsCore` emits (proof helper,
mirrors its recursion). -/
def dLenCore : Nat → Nat → Nat
  | 0, _ => 1
  | fuel + 1, n => if n < 10 then 1 else dLenCore fuel (n / 10) + 1

/-- Decimal representation of a natural number. -/
def printNat (n : Nat) : String := String.mk (natToDigitsCore n n [])

/-- Parse a nonempty digit string as a natural number. -/
def parseNat (s : String) : Option Nat :=
  match s.data with
  | [] => none
  | c :: cs => digitsToNat (c :: cs) 0

/-- Decimal representation of an integer. -/
def printInt : Int → String
  | Int.ofNat m => printNat m
  | Int.negSucc m => String.mk ('-' :: natToDigitsCore (m + 1) (m + 1) [])

/-- Parse an optionally-signed decimal literal as an integer. -/
def parseInt (s : String) : Option Int :=
  match s.data with
  | [] => none
  | c :: cs =>
    if c = '-' then
      match cs with
      | [] => none
      | c2 :: cs2 => Option.map (fun m => -(m : Int)) (digitsToNat (c2 :: cs2) 0)
    else Option.map (fun m => (m : Int)) (digitsToNat (c :: cs) 0)

/-! ### The CSV type-inference rules (spec section 6) -/

/-- Read one raw cell: empty means Absent, a decimal literal means
Number, anything else means Text. -/
def parseCell (s : String) : CellValue :=
  if s = "" then CellValue.Absent
  else
    match parseInt s with
    | some n => CellValue.Number n
    | none => CellValue.Text s

/-- Serialize one cell back to its raw string form. -/
def showCell : CellValue → String
  | CellValue.Number n => printInt n
  | CellValue.Text s => s
  | CellValue.Absent => ""

/-- The table-reading facility applied to an already-loaded raw file. -/
def parseTable (raw : RawCSV) : Table :=
  ⟨raw.header, raw.rows.map (fun row => row.map parseCell)⟩

/-- The table-writing facility: serialize a table to a raw file with the
same header and no added index column (`index=False`). -/
def toCSV (t : Table) : RawCSV :=
  ⟨t.header, t.rows.map (fun row => row.map showCell)⟩

/-! ### File system model -/

/-- The file system: an association list from path to raw CSV file,
newest binding first. -/
abbrev FSys : Type := List (String × RawCSV)

/-- Read the file at a path, if present. -/
def fsRead : FSys → String → Option RawCSV
  | [], _ => none
  | (q, f) :: rest, p => if q = p then some f else fsRead rest p

/-- Write a file at a path, overwriting any existing file there. -/
def fsWrite (fs : FSys) (p : String) (f : RawCSV) : FSys := (p, f) :: fs

/-- `pd.read_csv`: load and parse the file at a path, or fail with a
load error (file not found). -/
def read_csv (fs : FSys) (path : String) : Except String Table :=
  match fsRead fs path with
  | none => Except.error (path ++ ": file not found")
  | some raw => Except.ok (parseTable raw)

/-! ### The null-to-zero transformation -/

/-- `fillna(0)` on one cell: Absent becomes Number 0, all else kept. -/
def fillCell : CellValue → CellValue
  | CellValue.Absent => CellValue.Number 0
  | c => c

/-- `df.fillna(0)`: replace every Absent cell with Number 0. -/
def Table.fillna (t : Table) : Table :=
  ⟨t.header, t.rows.map (fun row => row.map fillCell)⟩

/-- A table with no Absent cell. -/
def noAbsent (t : Table) : Prop :=
  ∀ row ∈ t.rows, ∀ c ∈ row, c ≠ CellValue.Absent

instance (t : Table) : Decidable (noAbsent t) := by
  unfold noAbsent; infer_instance

/-- The cell of a table at row `i`, column `j`, if in range. -/
def cellAt (t : Table) (i j : Nat) : Option CellValue :=
  (t.rows[i]?).bind (fun row => row[j]?)

/-! ### The NullCleaner component -/

/-- The component state: the stored source location and the owned
cleaned table (`None` until a successful clean). -/
structure NullCleaner where
  file_path : String
  cleaned_df : Option Table
deriving DecidableEq, Repr

/-- The constructor: stores the path, owns no table, performs no I/O. -/
def NullCleaner.make (p : String) : NullCleaner := ⟨p, none⟩

/-- The fixed default output location used by `clean_nulls` and as the
default of `save_cleaned_data`. -/
def default_output_path : String := "updated_nulls.csv"

/-- Result of running an operation: the component afterwards, the file
system afterwards, and the messages printed. -/
structure RunResult where
  cleaner : NullCleaner
  fs : FSys
  out : List String
deriving DecidableEq, Repr

/-- `NullCleaner.clean_nulls`: load the CSV, replace nulls with 0, store
the result in `cleaned_df`, then write it to the default output path.
Any exception from the load or the write is caught and printed; note
that `cleaned_df` is assigned before the write is attempted, exactly as
in the source. `writeOk = false` models the write raising. -/
def NullCleaner.clean_nulls (nc : NullCleaner) (fs : FSys) (writeOk : Bool) :
    RunResult :=
  match read_csv fs nc.file_path with
  | Except.error e => ⟨nc, fs, ["Error cleaning nulls: " ++ e]⟩
  | Except.ok df =>
    let nc2 : NullCleaner := ⟨nc.file_path, some df.fillna⟩
    if writeOk then
      ⟨nc2, fsWrite fs default_output_path (toCSV df.fillna),
        ["Null values successfully replaced with 0.",
         "Cleaned data saved to updated_nulls.csv."]⟩
    else
      ⟨nc2, fs, ["Error cleaning nulls: write failed"]⟩

/-- `NullCleaner.save_cleaned_data`: if a cleaned table is owned, write
it to `output_path` (catching and printing write errors); otherwise
print the precondition failure and write nothing. -/
def NullCleaner.save_cleaned_data (nc : NullCleaner) (fs : FSys)
    (output_path : String) (writeOk : Bool) : RunResult :=
  match nc.cleaned_df with
  | some df =>
    if writeOk then
      ⟨nc, fsWrite fs output_path (toCSV df),
        ["Cleaned data saved to " ++ output_path ++ "."]⟩
    else
      ⟨nc, fs, ["Error saving file: write failed"]⟩
  | none => ⟨nc, fs, ["Please run clean_nulls() before saving."]⟩

/-! ### Concrete example data (the spec's example scenario) used by
witnesses -/

/-- The spec's example source file: columns group, category, 2020_Q1 and
one row with an empty last cell. -/
def exRaw : RawCSV := ⟨["group", "category", "2020_Q1"], [["X", "1", ""]]⟩

/-- A file system holding the example source file under the repository's
default input name. -/
def exFS : FSys := [("dummy_filter_format.csv", exRaw)]

/-- The example source file as loaded by the reading facility. -/
def exTable : Table := parseTable exRaw

/-- The example file system with a stale file already present at the
default output location. -/
def exOldFS : FSys := exFS ++ [("updated_nulls.csv", ⟨["old"], []⟩)]

/-- The example table after cleaning. -/
def exClean : Table := exTable.fillna

/-! ### Lemmas about decimal printing and parsing -/

/-- A digit character decodes back to its digit. -/
theorem digitVal_toDigitChar : ∀ d, d < 10 → digitVal (toDigitChar d) = d := by
  decide

/-- Digit characters satisfy the digit test. -/
theorem isDigitChar_toDigitChar : ∀ d, d < 10 → isDigitChar (toDigitChar d) = true := by
  decide

/-- Digit characters are not the minus sign. -/
theorem toDigitChar_ne_dash : ∀ d, d < 10 → toDigitChar d ≠ '-' := by
  decide

/-- Core round-trip: parsing the printed digits of `n` in front of `acc`
continues parsing `acc` with `n` folded into the accumulator. -/
theorem digitsToNat_natToDigitsCore :
    ∀ (fuel n : Nat), n ≤ fuel → ∀ (acc : List Char) (a : Nat),
      digitsToNat (natToDigitsCore fuel n acc) a
        = digitsToNat acc (a * 10 ^ dLenCore fuel n + n) := by
  intro fuel
  induction fuel with
  | zero =>
    intro n hn acc a
    have hn0 : n = 0 := by omega
    subst hn0
    simp [natToDigitsCore, dLenCore, digitsToNat,
      isDigitChar_toDigitChar 0 (by omega), digitVal_toDigitChar 0 (by omega)]
  | succ fuel ih =>
    intro n hn acc a
    by_cases h : n < 10
    · simp [natToDigitsCore, h, dLenCore, digitsToNat,
        isDigitChar_toDigitChar n h, digitVal_toDigitChar n h]
    · have hq : n / 10 ≤ fuel := by omega
      have hlt : n % 10 < 10 := by omega
      rw [show natToDigitsCore (fuel + 1) n acc
          = natToDigitsCore fuel (n / 10) (toDigitChar (n % 10) :: acc) by
        simp [natToDigitsCore, h]]
      rw [ih (n / 10) hq (toDigitChar (n % 10) :: acc) a]
      rw [show dLenCore (fuel + 1) n = dLenCore fuel (n / 10) + 1 by
        simp [dLenCore, h]]
      rw [show digitsToNat (toDigitChar (n % 10) :: acc)
            (a * 10 ^ dLenCore fuel (n / 10) + n / 10)
          = digitsToNat acc
            ((a * 10 ^ dLenCore fuel (n / 10) + n / 10) * 10 + n % 10) by
        simp [digitsToNat, isDigitChar_toDigitChar (n % 10) hlt,
          digitVal_toDigitChar (n % 10) hlt]]
      congr 1
      have hdm : n / 10 * 10 + n % 10 = n := by omega
      calc (a * 10 ^ dLenCore fuel (n / 10) + n / 10) * 10 + n % 10
          = a * (10 ^ dLenCore fuel (n / 10) * 10) + (n / 10 * 10 + n % 10) := by
            ring
        _ = a * 10 ^ (dLenCore fuel (n / 10) + 1) + n := by rw [hdm, pow_succ]

/-- The printer never emits an empty digit list. -/
theorem natToDigitsCore_ne_nil : ∀ fuel n acc, natToDigitsCore fuel n acc ≠ [] := by
  intro fuel
  induction fuel with
  | zero => intro n acc; simp [natToDigitsCore]
  | succ fuel ih =>
    intro n acc
    by_cases h : n < 10
    · simp [natToDigitsCore, h]
    · simpa [natToDigitsCore, h] using ih (n / 10) (toDigitChar (n % 10) :: acc)

/-- The first emitted character is a digit character. -/
theorem natToDigitsCore_head :
    ∀ fuel n, n ≤ fuel → ∀ acc, ∃ d rest,
      natToDigitsCore fuel n acc = toDigitChar d :: rest ∧ d < 10 := by
  intro fuel
  induction fuel with
  | zero =>
    intro n hn acc
    have hn0 : n = 0 := by omega
    subst hn0
    exact ⟨0, acc, rfl, by omega⟩
  | succ fuel ih =>
    intro n hn acc
    by_cases h : n < 10
    · exact ⟨n, acc, by simp [natToDigitsCore, h], h⟩
    · have hq : n / 10 ≤ fuel := by omega
      obtain ⟨d, rest, heq, hd⟩ := ih (n / 10) hq (toDigitChar (n % 10) :: acc)
      exact ⟨d, rest, by simp [natToDigitsCore, h, heq], hd⟩

/-- Parsing the full printed form of `n` yields `n`. -/
theorem digitsToNat_full (n : Nat) :
    digitsToNat (natToDigitsCore n n []) 0 = some n := by
  rw [digitsToNat_natToDigitsCore n n le_rfl [] 0]
  simp [digitsToNat]

/-- Unfolding of `parseNat` on a nonempty character list. -/
theorem parseNat_mk_cons (c : Char) (cs : List Char) :
    parseNat (String.mk (c :: cs)) = digitsToNat (c :: cs) 0 := rfl

/-- `printNat` and `parseNat` are a round trip. -/
theorem parseNat_printNat (n : Nat) : parseNat (printNat n) = some n := by
  obtain ⟨d, rest, heq, _⟩ := natToDigitsCore_head n n le_rfl []
  unfold printNat
  rw [heq, parseNat_mk_cons, ← heq]
  exact digitsToNat_full n

/-- Unfolding of `parseInt` on a nonempty character list. -/
theorem parseInt_mk_cons (c : Char) (cs : List Char) :
    parseInt (String.mk (c :: cs)) =
      (if c = '-' then
        match cs with
        | [] => none
        | c2 :: cs2 => Option.map (fun m => -(m : Int)) (digitsToNat (c2 :: cs2) 0)
      else Option.map (fun m => (m : Int)) (digitsToNat (c :: cs) 0)) := rfl

/-- `printInt` and `parseInt` are a round trip. -/
theorem parseInt_printInt (n : Int) : parseInt (printInt n) = some n := by
  cases n with
  | ofNat m =>
    obtain ⟨d, rest, heq, hd⟩ := natToDigitsCore_head m m le_rfl []
    rw [show printInt (Int.ofNat m) = String.mk (natToDigitsCore m m []) from rfl]
    rw [heq, parseInt_mk_cons, if_neg (toDigitChar_ne_dash d hd), ← heq,
      digitsToNat_full m]
    rfl
  | negSucc m =>
    obtain ⟨d, rest, heq, hd⟩ :=
      natToDigitsCore_head (m + 1) (m + 1) le_rfl []
    rw [show printInt (Int.negSucc m)
        = String.mk ('-' :: natToDigitsCore (m + 1) (m + 1) []) from rfl]
    rw [heq, parseInt_mk_cons, if_pos rfl]
    change Option.map (fun k => -(k : Int)) (digitsToNat (toDigitChar d :: rest) 0)
      = some (Int.negSucc m)
    rw [← heq, digitsToNat_full (m + 1)]
    simp [Int.negSucc_eq]

/-- The printed form of an integer is never the empty string. -/
theorem printInt_ne_empty (n : Int) : printInt n ≠ "" := by
  intro h
  have h2 := congrArg String.data h
  cases n with
  | ofNat m =>
    exact natToDigitsCore_ne_nil m m []
      (by simpa [printInt, printNat] using h2)
  | negSucc m => simp [printInt] at h2

/-- Reloading the serialized form of a numeric cell gives it back
unchanged: the Number case of the type-inference rules. -/
theorem parseCell_showCell_Number (n : Int) :
    parseCell (showCell (CellValue.Number n)) = CellValue.Number n := by
  unfold showCell parseCell
  rw [if_neg (printInt_ne_empty n), parseInt_printInt n]

/-! ### Lemmas about the null-to-zero transformation -/

/-- A non-Absent cell is untouched by `fillCell`. -/
theorem fillCell_of_ne_absent (c : CellValue) (h : c ≠ CellValue.Absent) :
    fillCell c = c := by
  cases c with
  | Number n => rfl
  | Text s => rfl
  | Absent => exact absurd rfl h

/-- `fillCell` never produces Absent. -/
theorem fillCell_ne_absent (c : CellValue) : fillCell c ≠ CellValue.Absent := by
  cases c <;> simp [fillCell]

/-- `fillCell` is idempotent. -/
theorem fillCell_fillCell (c : CellValue) : fillCell (fillCell c) = fillCell c := by
  cases c <;> rfl

/-- The cleaned table has no Absent cell. -/
theorem noAbsent_fillna (t : Table) : noAbsent t.fillna := by
  intro row hrow c hc
  unfold Table.fillna at hrow
  simp only [List.mem_map] at hrow
  obtain ⟨row0, _, rfl⟩ := hrow
  simp only [List.mem_map] at hc
  obtain ⟨c0, _, rfl⟩ := hc
  exact fillCell_ne_absent c0

/-- Cell-level description of `Table.fillna`. -/
theorem cellAt_fillna (t : Table) (i j : Nat) :
    cellAt t.fillna i j = (cellAt t i j).map fillCell := by
  unfold cellAt Table.fillna
  cases hrow : t.rows[i]? with
  | none => simp [List.getElem?_map, hrow]
  | some row => simp [List.getElem?_map, hrow]

/-! ### The claims -/

/-- Claim C1: for every source table, after a successful load inside
`clean_nulls` the owned cleaned table has zero Absent cells; every cell
that was Absent in the source equals Number 0, and every cell that was
not Absent is unchanged in value and type. -/
theorem c1_clean_replaces_absent_with_zero
    (nc : NullCleaner) (fs : FSys) (w : Bool) (df : Table)
    (hread : read_csv fs nc.file_path = Except.ok df) :
    ∃ t : Table,
      (nc.clean_nulls fs w).cleaner.cleaned_df = some t ∧
      noAbsent t ∧
      ∀ i j c, cellAt df i j = some c →
        cellAt t i j =
          some (if c = CellValue.Absent then CellValue.Number 0 else c) := by
  refine ⟨df.fillna, ?_, noAbsent_fillna df, ?_⟩
  · unfold NullCleaner.clean_nulls
    rw [hread]
    cases w <;> simp
  · intro i j c hcell
    rw [cellAt_fillna, hcell]
    cases c with
    | Number n => simp [fillCell]
    | Text s => simp [fillCell]
    | Absent => simp [fillCell]

/-- Witness for C1 at the spec's example scenario. -/
theorem c1_witness :
    ∃ t : Table,
      ((NullCleaner.make "dummy_filter_format.csv").clean_nulls exFS
        true).cleaner.cleaned_df = some t ∧
      noAbsent t ∧
      ∀ i j c, cellAt exTable i j = some c →
        cellAt t i j =
          some (if c = CellValue.Absent then CellValue.Number 0 else c) :=
  c1_clean_replaces_absent_with_zero
    (NullCleaner.make "dummy_filter_format.csv") exFS true exTable rfl

/-- Claim C2 counterexample: a write failure during `clean_nulls` (load
succeeded, write raised) leaves the component WITH an owned cleaned
table, contradicting "the component is left with no owned table" for
every failure. -/
theorem c2_counterexample :
    ((NullCleaner.make "dummy_filter_format.csv").clean_nulls exFS
      false).cleaner.cleaned_df ≠ none := by decide

/-- Claim C2 as amended: every failure during `clean_nulls` is caught
and a message is reported, and the call is total; but the state after a
failure is: on a load failure the owned table and the file system are
exactly as before the call (so the accessor yields absent only if the
component was uninitialized before), and on a write failure the
component owns the fully-cleaned table, since `cleaned_df` is assigned
before the write is attempted. -/
theorem c2_failure_handling (nc : NullCleaner) (fs : FSys) (w : Bool) :
    (∀ e, read_csv fs nc.file_path = Except.error e →
      (nc.clean_nulls fs w).cleaner = nc ∧
      (nc.clean_nulls fs w).fs = fs ∧
      (nc.clean_nulls fs w).out ≠ []) ∧
    (∀ df, read_csv fs nc.file_path = Except.ok df → w = false →
      (nc.clean_nulls fs w).cleaner.cleaned_df = some df.fillna ∧
      (nc.clean_nulls fs w).fs = fs ∧
      (nc.clean_nulls fs w).out ≠ []) := by
  constructor
  · intro e he
    unfold NullCleaner.clean_nulls
    rw [he]
    simp
  · intro df hdf hw
    subst hw
    unfold NullCleaner.clean_nulls
    rw [hdf]
    simp

/-- Witness for the amended C2: a missing source file, and a write
failure on the example file system. -/
theorem c2_failure_handling_witness :
    (((NullCleaner.make "missing.csv").clean_nulls [] true).cleaner
        = NullCleaner.make "missing.csv" ∧
      ((NullCleaner.make "missing.csv").clean_nulls [] true).fs = [] ∧
      ((NullCleaner.make "missing.csv").clean_nulls [] true).out ≠ []) ∧
    (((NullCleaner.make "dummy_filter_format.csv").clean_nulls exFS
        false).cleaner.cleaned_df = some exTable.fillna ∧
      ((NullCleaner.make "dummy_filter_format.csv").clean_nulls exFS
        false).fs = exFS ∧
      ((NullCleaner.make "dummy_filter_format.csv").clean_nulls exFS
        false).out ≠ []) :=
  ⟨(c2_failure_handling (NullCleaner.make "missing.csv") [] true).1
      ("missing.csv" ++ ": file not found") rfl,
    (c2_failure_handling (NullCleaner.make "dummy_filter_format.csv") exFS
      false).2 exTable rfl rfl⟩

/-- Claim C3: the cleaned table preserves the source structure: header
(column order and names), row count, and each row's cell count. -/
theorem c3_structure_preserved
    (nc : NullCleaner) (fs : FSys) (w : Bool) (df : Table)
    (hread : read_csv fs nc.file_path = Except.ok df) :
    ∃ t : Table,
      (nc.clean_nulls fs w).cleaner.cleaned_df = some t ∧
      t.header = df.header ∧
      t.rows.length = df.rows.length ∧
      ∀ i : Nat, (t.rows[i]?).map List.length = (df.rows[i]?).map List.length := by
  refine ⟨df.fillna, ?_, rfl, ?_, ?_⟩
  · unfold NullCleaner.clean_nulls
    rw [hread]
    cases w <;> simp
  · unfold Table.fillna
    simp
  · intro i
    unfold Table.fillna
    cases hrow : df.rows[i]? with
    | none => simp [List.getElem?_map, hrow]
    | some row => simp [List.getElem?_map, hrow]

/-- Witness for C3 at the spec's example scenario. -/
theorem c3_witness :
    ∃ t : Table,
      ((NullCleaner.make "dummy_filter_format.csv").clean_nulls exFS
        true).cleaner.cleaned_df = some t ∧
      t.header = exTable.header ∧
      t.rows.length = exTable.rows.length ∧
      ∀ i : Nat, (t.rows[i]?).map List.length
        = (exTable.rows[i]?).map List.length :=
  c3_structure_preserved
    (NullCleaner.make "dummy_filter_format.csv") exFS true exTable rfl

/-- Claim C4: `save_cleaned_data` called with no owned cleaned table
performs no file write, reports the precondition failure, and leaves the
component and the file system unchanged. -/
theorem c4_save_requires_clean
    (nc : NullCleaner) (fs : FSys) (p : String) (w : Bool)
    (h : nc.cleaned_df = none) :
    nc.save_cleaned_data fs p w
      = ⟨nc, fs, ["Please run clean_nulls() before saving."]⟩ := by
  unfold NullCleaner.save_cleaned_data
  rw [h]

/-- Witness for C4: saving from a freshly constructed cleaner. -/
theorem c4_witness :
    (NullCleaner.make "a.csv").save_cleaned_data exFS "out.csv" true
      = ⟨NullCleaner.make "a.csv", exFS,
          ["Please run clean_nulls() before saving."]⟩ :=
  c4_save_requires_clean (NullCleaner.make "a.csv") exFS "out.csv" true rfl

/-- Claim C5: on success, `clean_nulls` writes the cleaned table to the
fixed default output location, overwriting any existing file there, in
the same raw tabular format, with the original header (column order and
names) and no index column added. -/
theorem c5_clean_writes_default_output
    (nc : NullCleaner) (fs : FSys) (df : Table)
    (hread : read_csv fs nc.file_path = Except.ok df) :
    (nc.clean_nulls fs true).fs
        = fsWrite fs default_output_path (toCSV df.fillna) ∧
    fsRead (nc.clean_nulls fs true).fs default_output_path
        = some (toCSV df.fillna) ∧
    (toCSV df.fillna).header = df.header := by
  refine ⟨?_, ?_, rfl⟩
  · unfold NullCleaner.clean_nulls
    rw [hread]
    simp
  · unfold NullCleaner.clean_nulls
    rw [hread]
    simp [fsWrite, fsRead]

/-- Witness for C5: the default output file already exists and is
overwritten. -/
theorem c5_witness :
    ((NullCleaner.make "dummy_filter_format.csv").clean_nulls exOldFS true).fs
      = fsWrite exOldFS default_output_path (toCSV exTable.fillna) ∧
    fsRead ((NullCleaner.make "dummy_filter_format.csv").clean_nulls
        exOldFS true).fs default_output_path
      = some (toCSV exTable.fillna) ∧
    (toCSV exTable.fillna).header = exTable.header :=
  c5_clean_writes_default_output
    (NullCleaner.make "dummy_filter_format.csv") exOldFS exTable rfl

/-- Claim C6: round-trip. Saving the owned cleaned table and re-loading
the written file with the reading facility yields the table with each
cell re-inferred from its serialized form; the header and row structure
are equal, and every Number cell survives the round trip exactly. -/
theorem c6_round_trip
    (nc : NullCleaner) (fs : FSys) (p : String) (t : Table)
    (h : nc.cleaned_df = some t) :
    fsRead (nc.save_cleaned_data fs p true).fs p = some (toCSV t) ∧
    parseTable (toCSV t)
      = ⟨t.header,
          t.rows.map (fun row => row.map (fun c => parseCell (showCell c)))⟩ ∧
    (∀ n : Int, parseCell (showCell (CellValue.Number n)) = CellValue.Number n) := by
  refine ⟨?_, ?_, parseCell_showCell_Number⟩
  · unfold NullCleaner.save_cleaned_data
    rw [h]
    simp [fsWrite, fsRead]
  · unfold parseTable toCSV
    simp [List.map_map, Function.comp_def]

/-- Witness for C6 at the cleaned example table. -/
theorem c6_witness :
    fsRead ((⟨"dummy_filter_format.csv", some exClean⟩ :
        NullCleaner).save_cleaned_data exFS "out.csv" true).fs "out.csv"
      = some (toCSV exClean) ∧
    parseTable (toCSV exClean)
      = ⟨exClean.header,
          exClean.rows.map
            (fun row => row.map (fun c => parseCell (showCell c)))⟩ ∧
    (∀ n : Int, parseCell (showCell (CellValue.Number n)) = CellValue.Number n) :=
  c6_round_trip
    (⟨"dummy_filter_format.csv", some exClean⟩ : NullCleaner)
    exFS "out.csv" exClean rfl

/-- Claim C7: `save_cleaned_data` never changes the component state
(owned table and stored source location), and a write failure changes
nothing on the file system and is reported by a message rather than
raised. -/
theorem c7_save_preserves_state
    (nc : NullCleaner) (fs : FSys) (p : String) (w : Bool) :
    (nc.save_cleaned_data fs p w).cleaner = nc ∧
    (w = false → (nc.save_cleaned_data fs p w).fs = fs) ∧
    (w = false → nc.cleaned_df ≠ none →
      (nc.save_cleaned_data fs p w).out ≠ []) := by
  unfold NullCleaner.save_cleaned_data
  cases h : nc.cleaned_df with
  | none => cases w <;> simp
  | some df => cases w <;> simp

/-- Witness for C7: a failing write of the cleaned example table. -/
theorem c7_witness :
    ((⟨"dummy_filter_format.csv", some exClean⟩ :
        NullCleaner).save_cleaned_data exFS "out.csv" false).cleaner
      = (⟨"dummy_filter_format.csv", some exClean⟩ : NullCleaner) ∧
    ((⟨"dummy_filter_format.csv", some exClean⟩ :
        NullCleaner).save_cleaned_data exFS "out.csv" false).fs = exFS ∧
    ((⟨"dummy_filter_format.csv", some exClean⟩ :
        NullCleaner).save_cleaned_data exFS "out.csv" false).out ≠ [] :=
  ⟨(c7_save_preserves_state
      (⟨"dummy_filter_format.csv", some exClean⟩ : NullCleaner)
      exFS "out.csv" false).1,
    (c7_save_preserves_state
      (⟨"dummy_filter_format.csv", some exClean⟩ : NullCleaner)
      exFS "out.csv" false).2.1 rfl,
    (c7_save_preserves_state
      (⟨"dummy_filter_format.csv", some exClean⟩ : NullCleaner)
      exFS "out.csv" false).2.2 rfl (by decide)⟩

/-- Claim C8 counterexample: a cleaner constructed with the source
location "updated_nulls.csv" has the default output location EQUAL to
its input location, and a successful `clean_nulls` overwrites the file
at its own input path, so a re-run would consume its own prior output. -/
theorem c8_counterexample :
    (NullCleaner.make "updated_nulls.csv").file_path = default_output_path ∧
    fsRead ((NullCleaner.make "updated_nulls.csv").clean_nulls
        [("updated_nulls.csv", ⟨["x"], [[""]]⟩)] true).fs "updated_nulls.csv"
      ≠ some (⟨["x"], [[""]]⟩ : RawCSV) := by
  decide

/-- Claim C8 as amended: whenever the source location is not itself the
fixed name "updated_nulls.csv" (as with the repository's default input
"dummy_filter_format.csv"), the default output location is distinct from
the input location, and `clean_nulls` leaves the file at the input
location unchanged, so re-running never consumes its own prior output. -/
theorem c8_output_distinct_from_input
    (p : String) (fs : FSys) (w : Bool) (hp : p ≠ default_output_path) :
    (NullCleaner.make p).file_path ≠ default_output_path ∧
    fsRead ((NullCleaner.make p).clean_nulls fs w).fs p = fsRead fs p := by
  refine ⟨hp, ?_⟩
  unfold NullCleaner.clean_nulls NullCleaner.make
  cases hr : read_csv fs p with
  | error e => simp
  | ok df =>
    cases w with
    | false => simp
    | true =>
      simp only [fsWrite, fsRead]
      rw [if_neg (fun h => hp h.symm)]

/-- Witness for the amended C8 at the repository's default input name. -/
theorem c8_output_distinct_witness :
    (NullCleaner.make "dummy_filter_format.csv").file_path
      ≠ default_output_path ∧
    fsRead ((NullCleaner.make "dummy_filter_format.csv").clean_nulls
        exFS true).fs "dummy_filter_format.csv"
      = fsRead exFS "dummy_filter_format.csv" :=
  c8_output_distinct_from_input "dummy_filter_format.csv" exFS true (by decide)

/-- Claim C9: the null-to-zero transformation is the identity on tables
with no Absent cell, and hence is idempotent: cleaning the result of a
previous clean changes nothing. -/
theorem c9_fillna_idempotent (t : Table) :
    (noAbsent t → t.fillna = t) ∧ t.fillna.fillna = t.fillna := by
  constructor
  · intro h
    unfold Table.fillna
    cases t with
    | mk hdr rows =>
      simp only [Table.mk.injEq, true_and]
      have hrow : ∀ row ∈ rows, row.map fillCell = row := by
        intro row hrowmem
        have hc : ∀ c ∈ row, fillCell c = c := fun c hcmem =>
          fillCell_of_ne_absent c (h row hrowmem c hcmem)
        calc row.map fillCell = row.map id := List.map_congr_left hc
          _ = row := List.map_id row
      calc rows.map (fun row => row.map fillCell) = rows.map id :=
            List.map_congr_left hrow
        _ = rows := List.map_id rows
  · unfold Table.fillna
    simp [List.map_map, Function.comp_def, fillCell_fillCell]

/-- Witness for C9: the cleaned example table is a fixed point. -/
theorem c9_witness :
    exClean.fillna = exClean ∧ exClean.fillna.fillna = exClean.fillna :=
  ⟨(c9_fillna_idempotent exClean).1 (by decide),
    (c9_fillna_idempotent exClean).2⟩

/-- Claim C10: when `clean_nulls` is called with an owned cleaned table
already present and the new load fails, the component retains the
previously owned table: the accessor still returns the old table. -/
theorem c10_failed_reload_retains_table
    (nc : NullCleaner) (fs : FSys) (w : Bool) (t : Table)
    (hown : nc.cleaned_df = some t)
    (hmiss : fsRead fs nc.file_path = none) :
    (nc.clean_nulls fs w).cleaner.cleaned_df = some t := by
  unfold NullCleaner.clean_nulls read_csv
  rw [hmiss]
  simpa using hown

/-- Witness for C10: the source file was removed after a prior clean. -/
theorem c10_witness :
    ((⟨"dummy_filter_format.csv", some exClean⟩ :
        NullCleaner).clean_nulls [] true).cleaner.cleaned_df
      = some exClean :=
  c10_failed_reload_retains_table
    (⟨"dummy_filter_format.csv", some exClean⟩ : NullCleaner)
    [] true exClean rfl rfl
